import Mathlib

/-!
Shallow embedding of the Medha pediatric-dosage application, centred on the
`analyze-ehr` Supabase Edge Function (`supabase/functions/analyze-ehr/index.ts`)
together with the client-side pieces `App.tsx` (routing) and the
`loadPatients` operations of `PatientPanel.tsx` and `EHRAnalysis.tsx`.

Modelling conventions:
* JavaScript builtins with externally defined behaviour (`fetch`, the Gemini
  HTTP endpoint, `JSON.parse`, `parseFloat`, the clock behind `new Date()`)
  are oracles collected in an environment record; the code under
  verification is embedded as pure functions of that environment.
* A JavaScript number is observed by the handler only through template
  interpolation (`String(x)`), so numbers carried by the request are
  modelled by their string rendering.
* `undefined` and `null` are both modelled by `Option.none`; the handler
  never distinguishes them (it only applies `??`, `||` and truthiness).
* The handler is given back together with a trace recording every URL it
  fetched and every request it issued to the generative API.
-/

/-- A JSON value, as produced by `JSON.parse` and consumed by
`JSON.stringify`.  Response bodies are represented structurally by this type
rather than by their serialized text. -/
inductive Json where
  | null
  | bool (b : Bool)
  | num (n : Int)
  | str (s : String)
  | arr (elems : List Json)
  | obj (fields : List (String × Json))

/-- A JavaScript value that is either a number (observed through its string
rendering) or a string, as allowed for `age` and `weight` in `PatientInput`. -/
inductive JSVal where
  | num (render : String)
  | str (s : String)
deriving DecidableEq

/-- `PatientInput` of `analyze-ehr/index.ts` (plus the extra fields the
prompt builders read off the same object).  Absent or `null` fields are
`none`. -/
structure PatientInput where
  childName : Option String := none
  gender : Option String := none
  age : Option JSVal := none
  weight : Option JSVal := none
  drugName : Option String := none
  allergies : Option String := none
  drugReactions : Option String := none
  takingOtherMeds : Option String := none
  otherMeds : Option String := none
  diseaseName : Option String := none
  diseaseDurationMonths : Option String := none
deriving DecidableEq

/-- `AnalyzeRequest` of `analyze-ehr/index.ts`. -/
structure AnalyzeRequest where
  fileUrl : Option String := none
  labUrl : Option String := none
  patient : Option PatientInput := none
  symptoms : Option String := none
  additionalInfo : Option String := none
  analysisType : Option String := none
deriving DecidableEq

/-- One part of a Gemini `generateContent` request: a text part, or an
`inline_data` part carrying a MIME type and base64 data. -/
inductive GemPart where
  | text (t : String)
  | inlineData (mimeType : String) (data : String)
deriving DecidableEq

/-- The request `callGemini` sends to the generative API (the parts of the
single user turn; the model name, temperature and token cap are constants). -/
structure GeminiRequest where
  parts : List GemPart
deriving DecidableEq

/-- The external world of the Edge Function: each field is the behaviour of
one builtin or remote service during the request. -/
structure Env where
  /-- `Deno.env.get("GEMINI_API_KEY")`. -/
  apiKey : Option String
  /-- `fetch url` followed by `arrayBuffer()`: the fetched bytes, or the
  error thrown (a non-OK status is folded into the error case, as
  `fetchFileAsBase64` turns it into a throw). -/
  fetchFile : String → Except String (List Nat)
  /-- The generative API: the text extracted from the first candidate of a
  successful call, or the error thrown (network failure or non-OK status). -/
  geminiApi : GeminiRequest → Except String String
  /-- `JSON.parse`: `some` parsed value, or `none` when it throws. -/
  parseJSON : String → Option Json
  /-- The string rendering of `parseFloat s`. -/
  parseFloat : String → String

/-- The base64 alphabet, as used by `btoa`. -/
def b64Char (n : Nat) : Char :=
  "ABCDEFGHIJKLMNOPQRSTUVWXYZabcdefghijklmnopqrstuvwxyz0123456789+/".data.getD n 'A'

/-- Base64 encoding of a byte list:
`btoa(String.fromCharCode(...new Uint8Array(buf)))`. -/
def base64Encode : List Nat → String
  | b0 :: b1 :: b2 :: rest =>
      String.mk [b64Char (b0 / 4), b64Char (b0 % 4 * 16 + b1 / 16),
        b64Char (b1 % 16 * 4 + b2 / 64), b64Char (b2 % 64)] ++ base64Encode rest
  | [b0, b1] =>
      String.mk [b64Char (b0 / 4), b64Char (b0 % 4 * 16 + b1 / 16),
        b64Char (b1 % 16 * 4), '=']
  | [b0] => String.mk [b64Char (b0 / 4), b64Char (b0 % 4 * 16), '=', '=']
  | [] => ""

/-- `fetchFileAsBase64`: fetch the URL and base64-encode the bytes; an
unsuccessful fetch rethrows. -/
def fetchFileAsBase64 (env : Env) (url : String) : Except String String :=
  match env.fetchFile url with
  | .error e => .error e
  | .ok bytes => .ok (base64Encode bytes)

/-- Whether the pattern occurs at the head of the character list. -/
def charsStartWith : List Char → List Char → Bool
  | [], _ => true
  | _ :: _, [] => false
  | p :: ps, c :: cs => p == c && charsStartWith ps cs

/-- Whether the pattern occurs anywhere in the character list. -/
def charsContain : List Char → List Char → Bool
  | s, [] => charsStartWith [] s
  | [], _ :: _ => false
  | c :: cs, pat => charsStartWith pat (c :: cs) || charsContain cs pat

/-- JavaScript `s.includes(pat)`. -/
def strIncludes (s pat : String) : Bool := charsContain s.data pat.data

/-- The MIME type chosen for a URL by the handler (default
`application/pdf`, overridden by image extensions). -/
def mimeTypeFor (url : String) : String :=
  if strIncludes url ".jpg" || strIncludes url ".jpeg" then "image/jpeg"
  else if strIncludes url ".png" then "image/png"
  else if strIncludes url ".gif" then "image/gif"
  else if strIncludes url ".webp" then "image/webp"
  else "application/pdf"

/-- File payload attached to the generative call. -/
structure FileData where
  mimeType : String
  data : String
deriving DecidableEq

/-- The parts array built by `callGemini`: the text prompt, then the
`inline_data` part when file data is provided. -/
def buildParts (prompt : String) (fileData : Option FileData) : List GemPart :=
  match fileData with
  | none => [.text prompt]
  | some fd => [.text prompt, .inlineData fd.mimeType fd.data]

/-- `callGemini`: throws when the API key is unset (before any network
activity), otherwise issues exactly one request to the generative API.
Returns the outcome together with the list of API requests issued. -/
def callGemini (env : Env) (prompt : String) (fileData : Option FileData) :
    Except String String × List GeminiRequest :=
  match env.apiKey with
  | none => (.error "GEMINI_API_KEY is not set", [])
  | some _ =>
      let req : GeminiRequest := ⟨buildParts prompt fileData⟩
      (env.geminiApi req, [req])

/-- The `const age = typeof patient.age === "string" ? parseFloat(patient.age) : patient.age`
coercion: absent stays absent, numbers pass through, strings go through
`parseFloat`. -/
def numCoerce (env : Env) : Option JSVal → Option String
  | none => none
  | some (.num r) => some r
  | some (.str s) => some (env.parseFloat s)

/-- JavaScript `v || d` for an optional string field: the default replaces
both an absent field and the empty string. -/
def jsOr (v : Option String) (d : String) : String :=
  match v with
  | none => d
  | some s => if s = "" then d else s

/-- `buildPrompt` of `analyze-ehr/index.ts`: the dosage-analysis prompt
template. -/
def buildPrompt (env : Env) (patient : PatientInput)
    (hasEhrFile hasLabFile : Bool) : String :=
  let age := numCoerce env patient.age
  let weight := numCoerce env patient.weight
  let gender := patient.gender.getD "unspecified"
  let drug := patient.drugName.getD "unspecified"
  let name := patient.childName.getD "the child"
  let allergies := jsOr patient.allergies "None reported"
  let drugReactions := jsOr patient.drugReactions "None reported"
  let otherMeds :=
    if patient.takingOtherMeds = some "yes" then jsOr patient.otherMeds "Unspecified" else "None"
  let disease := jsOr patient.diseaseName "Not specified"
  let diseaseDuration := jsOr patient.diseaseDurationMonths "Unknown"
  "You are a pediatric clinical assistant analyzing patient data and medical documents.\n\nPATIENT INFORMATION:\n"
  ++ "- Name: " ++ name ++ "\n"
  ++ "- Gender: " ++ gender ++ "\n"
  ++ "- Age: " ++ age.getD "unknown" ++ " years\n"
  ++ "- Weight: " ++ weight.getD "unknown" ++ " kg\n"
  ++ "- Medication requested: " ++ drug ++ "\n"
  ++ "- Allergies: " ++ allergies ++ "\n"
  ++ "- Drug reactions: " ++ drugReactions ++ "\n"
  ++ "- Other medications: " ++ otherMeds ++ "\n"
  ++ "- Disease: " ++ disease ++ "\n"
  ++ "- Disease duration: " ++ diseaseDuration ++ " months\n"
  ++ "\nDOCUMENTS PROVIDED:\n"
  ++ (if hasEhrFile then
        "- EHR/Medical Report (PDF): Analyze this document for relevant clinical findings, lab values, diagnoses, and treatment history"
      else "- No EHR report provided")
  ++ "\n"
  ++ (if hasLabFile then
        "- Lab Report (Image/PDF): Analyze this document for lab values, vital signs, and diagnostic findings"
      else "- No lab report provided")
  ++ "\n\nANALYSIS TASKS:\n1. If EHR/medical documents are provided, extract key clinical findings, diagnoses, lab values, and treatment history\n2. If lab reports are provided, extract relevant lab values, vital signs, and diagnostic findings\n3. Cross-reference findings with the requested medication for potential interactions or contraindications\n4. Calculate appropriate pediatric dosing based on WHO/AAP guidelines\n5. Identify any red flags or contraindications\n6. Provide comprehensive clinical recommendations\n\nReturn JSON with the following exact structure:\n\x7b\n  \"doseResult\": \x7b\n    \"doseRange\": \"<minâ€“max mg/day or mg/kg/day with clear units>\",\n    \"recommendation\": \"<specific per-dose instructions e.g., 5 ml every 8 hours>\",\n    \"frequency\": \"<times per day>\",\n    \"duration\": \"<days>\"\n  \x7d,\n  \"precautions\": \"<bullet points about contraindications, drug interactions, monitoring requirements>\",\n  \"keepInMind\": \"<important clinical reminders, red flags to watch for, follow-up requirements>\",\n  \"notes\": \"<clinical rationale, document findings summary, WHO/AAP guideline references>\"\n\x7d\n\nIMPORTANT: \n- Use conservative dosing for pediatric patients\n- Consider weight-based dosing when appropriate\n- Highlight any contraindications or drug interactions\n- If documents reveal concerning findings, emphasize them in precautions\n- Always recommend clinical verification before prescribing"

/-- `buildDiseasePredictionPrompt` of `analyze-ehr/index.ts`. -/
def buildDiseasePredictionPrompt (env : Env) (patient : PatientInput)
    (symptoms : String) (additionalInfo : String) : String :=
  let age := numCoerce env patient.age
  let weight := numCoerce env patient.weight
  let gender := patient.gender.getD "unspecified"
  let name := patient.childName.getD "the child"
  let allergies := jsOr patient.allergies "None reported"
  "You are a pediatric clinical assistant analyzing patient symptoms for disease prediction and home remedy recommendations.\n\nPATIENT INFORMATION:\n"
  ++ "- Name: " ++ name ++ "\n"
  ++ "- Gender: " ++ gender ++ "\n"
  ++ "- Age: " ++ age.getD "unknown" ++ " years\n"
  ++ "- Weight: " ++ weight.getD "unknown" ++ " kg\n"
  ++ "- Allergies: " ++ allergies ++ "\n"
  ++ "\nSYMPTOMS REPORTED:\n" ++ symptoms ++ "\n"
  ++ "\nADDITIONAL INFORMATION:\n"
  ++ (if additionalInfo = "" then "None provided" else additionalInfo)
  ++ "\n\nANALYSIS TASKS:\n1. Analyze the symptoms and predict the most likely condition/disease\n2. Provide confidence level (0-100%) for the prediction\n3. Suggest appropriate home remedies for symptom relief\n4. List important precautions to take\n5. Specify when to seek immediate medical attention\n6. Assess severity level (low, moderate, high, critical)\n\nReturn JSON with the following exact structure:\n\x7b\n  \"diseasePrediction\": \"<most likely condition based on symptoms>\",\n  \"confidence\": <number between 0-100>,\n  \"symptoms\": [\"<list of reported symptoms>\"],\n  \"homeRemedies\": [\"<list of safe home remedies>\"],\n  \"precautions\": [\"<list of important precautions>\"],\n  \"whenToSeeDoctor\": [\"<list of warning signs requiring medical attention>\"],\n  \"severity\": \"<low|moderate|high|critical>\"\n\x7d\n\nIMPORTANT:\n- Focus on pediatric considerations for age "
  ++ age.getD "undefined"
  ++ " years\n- Prioritize safety and conservative recommendations\n- Always recommend professional medical consultation for serious symptoms\n- Consider weight-based dosing for any remedies\n- Highlight any red flags or emergency situations"

/-- JavaScript truthiness of an optional string (`!!fileUrl`): present and
non-empty. -/
def jsTruthy (v : Option String) : Bool :=
  match v with
  | none => false
  | some s => s != ""

/-- `const urlToAnalyze = fileUrl || labUrl!`: the EHR URL when truthy,
otherwise the lab URL. -/
def chosenUrl (b : AnalyzeRequest) : String :=
  if jsTruthy b.fileUrl then b.fileUrl.getD "" else b.labUrl.getD ""

/-- The file-preparation phase of the handler (lines 214-243 of
`analyze-ehr/index.ts`): when either URL is truthy, fetch the chosen URL;
on success build the `FileData`, on failure continue without a file.
Returns the file data (if any) and the list of URLs fetched. -/
def fetchPhase (env : Env) (b : AnalyzeRequest) : Option FileData × List String :=
  if jsTruthy b.fileUrl || jsTruthy b.labUrl then
    let urlToAnalyze := chosenUrl b
    match fetchFileAsBase64 env urlToAnalyze with
    | .ok b64 => (some ⟨mimeTypeFor urlToAnalyze, b64⟩, [urlToAnalyze])
    | .error _ => (none, [urlToAnalyze])
  else (none, [])

/-- The prompt the handler builds: the disease-prediction template when
`analysisType` is `disease_prediction`, else the dosage template with the
document flags computed from URL truthiness. -/
def requestPrompt (env : Env) (b : AnalyzeRequest) : String :=
  let patient := b.patient.getD {}
  if b.analysisType.getD "dosage_analysis" = "disease_prediction" then
    buildDiseasePredictionPrompt env patient (b.symptoms.getD "") (b.additionalInfo.getD "")
  else
    buildPrompt env patient (jsTruthy b.fileUrl) (jsTruthy b.labUrl)

/-- An HTTP response of the handler: status code and (structural) JSON body. -/
structure HttpResponse where
  status : Nat
  body : Json

/-- The external activity of one handler invocation. -/
structure Trace where
  fetchedUrls : List String
  geminiRequests : List GeminiRequest

/-- The fallback body used both on model error and on parse failure:
`{doseResult: null, precautions: null, keepInMind: null, notes: ...}`. -/
def fallbackBody (notes : String) : Json :=
  .obj [("doseResult", .null), ("precautions", .null), ("keepInMind", .null),
    ("notes", .str notes)]

/-- The single generative-API request a POST body gives rise to. -/
def geminiRequestOf (env : Env) (b : AnalyzeRequest) : GeminiRequest :=
  ⟨buildParts (requestPrompt env b) (fetchPhase env b).1⟩

/-- The handler body for a well-formed POST request (lines 203-279 of
`analyze-ehr/index.ts`). -/
def handlePost (env : Env) (b : AnalyzeRequest) : HttpResponse × Trace :=
  let fp := fetchPhase env b
  let prompt := requestPrompt env b
  match callGemini env prompt fp.1 with
  | (.error msg, calls) =>
      (⟨200, fallbackBody ("Model error: " ++ msg ++ ". Please try again or check GEMINI_API_KEY.")⟩,
        ⟨fp.2, calls⟩)
  | (.ok geminiText, calls) =>
      match env.parseJSON geminiText with
      | some parsed => (⟨200, parsed⟩, ⟨fp.2, calls⟩)
      | none => (⟨200, fallbackBody geminiText⟩, ⟨fp.2, calls⟩)

/-- An incoming HTTP request: its method, and the outcome of `req.json()`
(`.error msg` when the body is not valid JSON and parsing throws). -/
structure HttpRequest where
  method : String
  bodyJson : Except String AnalyzeRequest

/-- The `serve` handler of `analyze-ehr/index.ts`: reject non-POST methods
with 405, turn a body-parse throw into 400 via the outer catch, and
otherwise run the analysis. -/
def handle (env : Env) (req : HttpRequest) : HttpResponse × Trace :=
  if req.method = "POST" then
    match req.bodyJson with
    | .ok b => handlePost env b
    | .error msg => (⟨400, .obj [("error", .str msg)]⟩, ⟨[], []⟩)
  else
    (⟨405, .obj [("error", .str "Method not allowed")]⟩, ⟨[], []⟩)

/-- A row of the `patient_records` table as returned by the backend;
numeric columns are carried by their string rendering, nullable columns by
`Option`. -/
structure DBRecord where
  id : String
  child_name : Option String := none
  gender : Option String := none
  age_years : Option String := none
  weight_kg : Option String := none
  drug_name : Option String := none
  dose_range : Option String := none
  recommendation : Option String := none
  frequency : Option String := none
  duration : Option String := none
  analysis_notes : Option String := none
  created_at : Option String := none
  updated_at : Option String := none
deriving DecidableEq

/-- The query a component issues through the backend client:
`.from(table).select(cols).order(orderBy, { ascending })`. -/
structure DBQuery where
  table : String
  selectCols : String
  orderBy : String
  ascending : Bool
deriving DecidableEq

/-- The query both `loadPatients` implementations issue. -/
def patientsQuery : DBQuery :=
  { table := "patient_records", selectCols := "*", orderBy := "created_at", ascending := false }

/-- The client-side external world: the database and the clock. -/
structure ClientEnv where
  /-- The backend: rows answering a query, or a query error. -/
  db : DBQuery → Except String (List DBRecord)
  /-- The day part of `new Date(ts).toISOString()`. -/
  isoDayOf : String → String
  /-- The day part of `new Date().toISOString()` (the current day). -/
  today : String

/-- The client-side `Patient` interface (`PatientPanel.tsx`); numeric
fields again carried by their rendering. -/
structure Patient where
  id : String
  name : String
  gender : String
  age : String
  weight : String
  drug : String
  doseRange : String
  frequency : String
  duration : String
  allergies : String
  disease : String
  status : String
  notes : String
  date : String
  created_at : Option String := none
  updated_at : Option String := none
deriving DecidableEq

/-- `x || d` for a numeric column rendered as a string: `null` and `0` are
falsy. -/
def jsNumOr (v : Option String) (d : String) : String :=
  match v with
  | none => d
  | some r => if r = "0" then d else r

/-- First-match capture of a pattern `label(.+?)(?:\n|$)`: at the first
occurrence of `label` followed by at least one non-newline character, the
run of characters up to the next newline or the end of the string. -/
def matchCapture (label : List Char) : List Char → Option String
  | [] => none
  | c :: cs =>
      if charsStartWith label (c :: cs) then
        let rest := (c :: cs).drop label.length
        let captured := rest.takeWhile (fun ch => ch ≠ '\n')
        if captured.isEmpty then matchCapture label cs else some (String.mk captured)
      else matchCapture label cs

/-- The row-to-`Patient` transformation of `PatientPanel.loadPatients`
(lines 123-152), including the field extraction from `analysis_notes`. -/
def transformRecordPanel (env : ClientEnv) (r : DBRecord) : Patient :=
  let analysisNotes := jsOr r.analysis_notes ""
  let allergiesMatch := matchCapture "Allergies: ".data analysisNotes.data
  let diseaseMatch := matchCapture "Disease: ".data analysisNotes.data
  let drugReactionsMatch := matchCapture "Drug Reactions: ".data analysisNotes.data
  let otherMedsMatch := matchCapture "Other Medications: ".data analysisNotes.data
  let diseaseDurationMatch := matchCapture "Disease Duration: ".data analysisNotes.data
  { id := r.id
    name := jsOr r.child_name ""
    gender := jsOr r.gender ""
    age := jsNumOr r.age_years "0"
    weight := jsNumOr r.weight_kg "0"
    drug := jsOr r.drug_name ""
    doseRange := jsOr r.dose_range ""
    frequency := jsOr r.frequency (jsOr r.recommendation "")
    duration := jsOr r.duration ""
    allergies := match allergiesMatch with
      | some a => a
      | none => match otherMedsMatch with
        | some o => o
        | none => ""
    disease := diseaseMatch.getD ""
    status := "active"
    notes := analysisNotes
    date := if jsTruthy r.created_at then env.isoDayOf (r.created_at.getD "") else env.today
    created_at := r.created_at
    updated_at := r.updated_at }

/-- The mock data `PatientPanel.tsx` falls back to when the query errors. -/
def mockPatientsPanel : List Patient :=
  [{ id := "1", name := "Emma Johnson", gender := "Female", age := "5", weight := "18.5",
     drug := "Amoxicillin", doseRange := "185–370 mg/day", frequency := "3 times daily",
     duration := "7 days", allergies := "None", disease := "Acute otitis media",
     status := "active", notes := "Patient responding well to treatment", date := "2024-01-15" },
   { id := "2", name := "Oliver Smith", gender := "Male", age := "7", weight := "22.3",
     drug := "Ibuprofen", doseRange := "223–446 mg/day", frequency := "2 times daily",
     duration := "5 days", allergies := "None", disease := "Fever",
     status := "completed", notes := "Treatment completed successfully", date := "2024-01-14" },
   { id := "3", name := "Sophia Davis", gender := "Female", age := "4", weight := "15.2",
     drug := "Acetaminophen", doseRange := "152–304 mg/day", frequency := "4 times daily",
     duration := "3 days", allergies := "Penicillin", disease := "Pain management",
     status := "active", notes := "Monitor for allergic reactions", date := "2024-01-13" }]

/-- `PatientPanel.loadPatients`: query `patient_records` ordered by
`created_at` descending; transform the rows on success, fall back to the
mock list on a query error. -/
def loadPatientsPanel (env : ClientEnv) : List Patient :=
  match env.db patientsQuery with
  | .error _ => mockPatientsPanel
  | .ok rows => rows.map (transformRecordPanel env)

/-- The row-to-`Patient` transformation of `EHRAnalysis.loadPatients`
(lines 122-137). -/
def transformRecordEHR (env : ClientEnv) (r : DBRecord) : Patient :=
  { id := r.id
    name := jsOr r.child_name ""
    gender := jsOr r.gender ""
    age := jsNumOr r.age_years "0"
    weight := jsNumOr r.weight_kg "0"
    drug := jsOr r.drug_name ""
    doseRange := jsOr r.dose_range ""
    frequency := jsOr r.frequency ""
    duration := jsOr r.duration ""
    allergies := "None"
    disease := "Not specified"
    status := "active"
    notes := jsOr r.analysis_notes ""
    date := if jsTruthy r.created_at then env.isoDayOf (r.created_at.getD "") else env.today }

/-- The mock data `EHRAnalysis.tsx` falls back to when the query errors. -/
def mockPatientsEHR : List Patient :=
  [{ id := "1", name := "Suraj Kumar", gender := "Male", age := "14", weight := "30",
     drug := "Paracetamol", doseRange := "300-600 mg/day", frequency := "3 times daily",
     duration := "5 days", allergies := "None", disease := "Fever",
     status := "active", notes := "Patient with fever symptoms", date := "2025-01-07" },
   { id := "2", name := "Emma Johnson", gender := "Female", age := "5", weight := "18.5",
     drug := "Amoxicillin", doseRange := "185–370 mg/day", frequency := "3 times daily",
     duration := "7 days", allergies := "None", disease := "Acute otitis media",
     status := "active", notes := "Ear infection treatment", date := "2025-01-06" }]

/-- `EHRAnalysis.loadPatients`: same query, its own transformation and mock
fallback. -/
def loadPatientsEHR (env : ClientEnv) : List Patient :=
  match env.db patientsQuery with
  | .error _ => mockPatientsEHR
  | .ok rows => rows.map (transformRecordEHR env)

/-- What `renderPage` of `App.tsx` can render. -/
inductive Rendered where
  | loginPage
  | landingPage
  | doctorPanel
  | patientPanel
  | ehrAnalysis
deriving DecidableEq

/-- `renderPage` of `App.tsx` (lines 68-87): every page falls back to the
login page when no authenticated session exists; unknown pages and `login`
always render the login page. -/
def renderPage (currentPage : String) (isAuthenticated : Bool) : Rendered :=
  match currentPage with
  | "landing" => if isAuthenticated then .landingPage else .loginPage
  | "doctor" => if isAuthenticated then .doctorPanel else .loginPage
  | "patient" => if isAuthenticated then .patientPanel else .loginPage
  | "ehr-analysis" => if isAuthenticated then .ehrAnalysis else .loginPage
  | "login" => .loginPage
  | _ => .loginPage

/-- `pat` occurs as a contiguous substring of `s`. -/
def containsStr (s pat : String) : Prop :=
  ∃ pre post : String, pre ++ pat ++ post = s

/-- Containment is stable under appending on the right. -/
theorem containsStr_snoc (a s pat : String) : containsStr s pat → containsStr (s ++ a) pat
  | ⟨pre, post, h⟩ => ⟨pre, post ++ a, by rw [← h]; simp [String.append_assoc]⟩

/-- A three-leaf pattern at the tail of a concatenation is contained. -/
theorem containsStr_tail3 (pre a b c : String) : containsStr (pre ++ a ++ b ++ c) (a ++ b ++ c) :=
  ⟨pre, "", by apply String.ext; simp [String.data_append]⟩

/-- The last leaf of a concatenation is contained. -/
theorem containsStr_tail1 (pre a : String) : containsStr (pre ++ a) a :=
  ⟨pre, "", by apply String.ext; simp [String.data_append]⟩

/-- C7: for every patient input, the dosage prompt built by `buildPrompt`
contains the patient name, gender, age, weight and requested medication
lines, with defaults `the child` for a missing name, `unspecified` for
missing gender or drug, and `unknown` for missing age or weight; a
string-valued age or weight is converted with `parseFloat` before
insertion (the `numCoerce` equations). -/
theorem buildPrompt_patient_fields (env : Env) (p : PatientInput) (hasEhr hasLab : Bool) :
    containsStr (buildPrompt env p hasEhr hasLab)
      ("- Name: " ++ p.childName.getD "the child" ++ "\n") ∧
    containsStr (buildPrompt env p hasEhr hasLab)
      ("- Gender: " ++ p.gender.getD "unspecified" ++ "\n") ∧
    containsStr (buildPrompt env p hasEhr hasLab)
      ("- Age: " ++ (numCoerce env p.age).getD "unknown" ++ " years\n") ∧
    containsStr (buildPrompt env p hasEhr hasLab)
      ("- Weight: " ++ (numCoerce env p.weight).getD "unknown" ++ " kg\n") ∧
    containsStr (buildPrompt env p hasEhr hasLab)
      ("- Medication requested: " ++ p.drugName.getD "unspecified" ++ "\n") ∧
    numCoerce env none = none ∧
    (∀ s, numCoerce env (some (.str s)) = some (env.parseFloat s)) ∧
    (∀ r, numCoerce env (some (.num r)) = some r) := by
  refine ⟨?_, ?_, ?_, ?_, ?_, rfl, fun s => rfl, fun r => rfl⟩
  · simp only [buildPrompt]
    iterate 32 apply containsStr_snoc
    exact containsStr_tail3 _ _ _ _
  · simp only [buildPrompt]
    iterate 29 apply containsStr_snoc
    exact containsStr_tail3 _ _ _ _
  · simp only [buildPrompt]
    iterate 26 apply containsStr_snoc
    exact containsStr_tail3 _ _ _ _
  · simp only [buildPrompt]
    iterate 23 apply containsStr_snoc
    exact containsStr_tail3 _ _ _ _
  · simp only [buildPrompt]
    iterate 20 apply containsStr_snoc
    exact containsStr_tail3 _ _ _ _

/-- C10: for every value of the routing state, an unauthenticated user is
shown the login page, and a clinical panel (doctor, patient, EHR analysis
or landing) is rendered only when a session exists. -/
theorem renderPage_requires_auth :
    (∀ page, renderPage page false = .loginPage) ∧
    (∀ page auth,
      renderPage page auth = .doctorPanel ∨ renderPage page auth = .patientPanel ∨
        renderPage page auth = .ehrAnalysis ∨ renderPage page auth = .landingPage →
      auth = true) := by
  have h1 : ∀ page, renderPage page false = .loginPage := by
    intro page
    unfold renderPage
    split <;> simp
  refine ⟨h1, fun page auth h => ?_⟩
  cases auth with
  | true => rfl
  | false => rcases h with h | h | h | h <;> rw [h1 page] at h <;> exact absurd h (by simp)

/-- C9: a non-POST request is answered with 405 `Method not allowed`
without reading the body or contacting any external service, and a POST
request whose body fails to parse as JSON is answered with 400 and an
`error` field. -/
theorem analyzeEhr_method_body_guards (env : Env) (m : String)
    (bj : Except String AnalyzeRequest) :
    (m ≠ "POST" →
      handle env ⟨m, bj⟩ = (⟨405, .obj [("error", .str "Method not allowed")]⟩, ⟨[], []⟩) ∧
      ∀ bj', handle env ⟨m, bj⟩ = handle env ⟨m, bj'⟩) ∧
    (∀ msg, handle env ⟨"POST", .error msg⟩ =
      (⟨400, .obj [("error", .str msg)]⟩, ⟨[], []⟩)) := by
  constructor
  · intro hm
    constructor
    · simp [handle, hm]
    · intro bj'
      simp [handle, hm]
  · intro msg
    simp [handle]

/-- Witness for C10 at concrete pages. -/
theorem renderPage_requires_auth_witness :
    renderPage "doctor" false = Rendered.loginPage ∧ (true : Bool) = true :=
  ⟨renderPage_requires_auth.1 "doctor",
    renderPage_requires_auth.2 "doctor" true (Or.inl rfl)⟩

/-- Witness for C9 at a concrete GET request and a concrete parse error. -/
theorem analyzeEhr_method_body_guards_witness :
    (handle ⟨none, fun _ => .error "offline", fun _ => .error "offline",
        fun _ => none, fun s => s⟩ ⟨"GET", .error "bad json"⟩ =
      (⟨405, .obj [("error", .str "Method not allowed")]⟩, ⟨[], []⟩)) ∧
    (handle ⟨none, fun _ => .error "offline", fun _ => .error "offline",
        fun _ => none, fun s => s⟩ ⟨"POST", .error "bad json"⟩ =
      (⟨400, .obj [("error", .str "bad json")]⟩, ⟨[], []⟩)) :=
  ⟨((analyzeEhr_method_body_guards _ "GET" (.error "bad json")).1 (by decide)).1,
    (analyzeEhr_method_body_guards _ "GET" (.error "bad json")).2 "bad json"⟩

/-- A concrete environment whose model call succeeds with parseable JSON. -/
def envRelay : Env :=
  ⟨some "key", fun _ => .error "offline", fun _ => .ok "[1]",
    fun _ => some (.arr [.num 1]), fun s => s⟩

/-- A concrete environment whose model call succeeds with unparseable text. -/
def envNoParse : Env :=
  ⟨some "key", fun _ => .error "offline", fun _ => .ok "plain text",
    fun _ => none, fun s => s⟩

/-- A concrete environment whose model call throws. -/
def envModelError : Env :=
  ⟨some "key", fun _ => .error "offline", fun _ => .error "boom",
    fun _ => none, fun s => s⟩

/-- C1: when the generative call succeeds and its text parses as JSON, the
handler answers 200 with exactly the parsed value as body. -/
theorem analyzeEhr_relays_parsed_json (env : Env) (b : AnalyzeRequest) (k text : String)
    (j : Json) (hk : env.apiKey = some k)
    (hg : env.geminiApi (geminiRequestOf env b) = .ok text)
    (hp : env.parseJSON text = some j) :
    (handle env ⟨"POST", .ok b⟩).1 = ⟨200, j⟩ := by
  have hg' : env.geminiApi ⟨buildParts (requestPrompt env b) (fetchPhase env b).1⟩ = .ok text := hg
  simp [handle, handlePost, callGemini, hk, hg', hp]

/-- Witness for C1 at a concrete request and environment. -/
theorem analyzeEhr_relays_parsed_json_witness :
    (handle envRelay ⟨"POST", .ok {}⟩).1 = ⟨200, Json.arr [Json.num 1]⟩ :=
  analyzeEhr_relays_parsed_json envRelay {} "key" "[1]" (Json.arr [Json.num 1]) rfl rfl rfl

/-- C2: when the generative call succeeds but its text does not parse as
JSON, the handler answers 200 with the null-fields fallback carrying the
raw text as `notes`, having called the model exactly once. -/
theorem analyzeEhr_parse_failure_fallback (env : Env) (b : AnalyzeRequest) (k text : String)
    (hk : env.apiKey = some k)
    (hg : env.geminiApi (geminiRequestOf env b) = .ok text)
    (hp : env.parseJSON text = none) :
    handle env ⟨"POST", .ok b⟩ =
      (⟨200, fallbackBody text⟩, ⟨(fetchPhase env b).2, [geminiRequestOf env b]⟩) := by
  have hg' : env.geminiApi ⟨buildParts (requestPrompt env b) (fetchPhase env b).1⟩ = .ok text := hg
  simp [handle, handlePost, callGemini, hk, hg', hp, geminiRequestOf]

/-- Witness for C2 at a concrete request and environment. -/
theorem analyzeEhr_parse_failure_fallback_witness :
    (handle envNoParse ⟨"POST", .ok {}⟩).1 = ⟨200, fallbackBody "plain text"⟩ :=
  congrArg Prod.fst
    (analyzeEhr_parse_failure_fallback envNoParse {} "key" "plain text" rfl rfl rfl)

/-- C3: every invocation of the handler issues at most one generative-API
request, and when that single call throws, the handler answers 200 with all
dose fields null and a `notes` string starting `Model error: ` followed by
the thrown message, without a second call. -/
theorem analyzeEhr_single_shot (env : Env) (req : HttpRequest) :
    (handle env req).2.geminiRequests.length ≤ 1 ∧
    (∀ b k msg, req = ⟨"POST", .ok b⟩ → env.apiKey = some k →
      env.geminiApi (geminiRequestOf env b) = .error msg →
      handle env req =
        (⟨200, fallbackBody
            ("Model error: " ++ msg ++ ". Please try again or check GEMINI_API_KEY.")⟩,
          ⟨(fetchPhase env b).2, [geminiRequestOf env b]⟩)) := by
  constructor
  · obtain ⟨m, bj⟩ := req
    by_cases hm : m = "POST"
    · subst hm
      cases bj with
      | error msg => simp [handle]
      | ok b =>
        have hh : (handle env ⟨"POST", .ok b⟩) = handlePost env b := by simp [handle]
        rw [hh]
        simp only [handlePost]
        rcases hc : callGemini env (requestPrompt env b) (fetchPhase env b).1 with ⟨res, calls⟩
        have hcal : calls.length ≤ 1 := by
          have h2 : (callGemini env (requestPrompt env b) (fetchPhase env b).1).2.length ≤ 1 := by
            unfold callGemini; cases env.apiKey <;> simp
          rw [hc] at h2; exact h2
        cases res with
        | error msg => simpa using hcal
        | ok text =>
          cases hp : env.parseJSON text <;> simpa [hp] using hcal
    · simp [handle, hm]
  · intro b k msg hreq hk hg
    subst hreq
    have hg' : env.geminiApi ⟨buildParts (requestPrompt env b) (fetchPhase env b).1⟩ = .error msg := hg
    simp [handle, handlePost, callGemini, hk, hg', geminiRequestOf]

/-- Witness for C3 at a concrete request and environment. -/
theorem analyzeEhr_single_shot_witness :
    (handle envModelError ⟨"POST", .ok {}⟩).2.geminiRequests.length ≤ 1 ∧
    (handle envModelError ⟨"POST", .ok {}⟩).1 =
      ⟨200, fallbackBody "Model error: boom. Please try again or check GEMINI_API_KEY."⟩ :=
  ⟨(analyzeEhr_single_shot envModelError ⟨"POST", .ok {}⟩).1,
    congrArg Prod.fst
      ((analyzeEhr_single_shot envModelError ⟨"POST", .ok {}⟩).2 {} "key" "boom" rfl rfl rfl)⟩

/-- A concrete environment whose file fetch succeeds. -/
def envFetch : Env :=
  ⟨some "key", fun _ => .ok [104, 105], fun _ => .ok "t", fun _ => none, fun s => s⟩

/-- A concrete environment whose file fetch fails. -/
def envFetchFail : Env :=
  ⟨some "key", fun _ => .error "404", fun _ => .ok "t", fun _ => none, fun s => s⟩

/-- A concrete request carrying only an EHR file URL. -/
def reqFile : AnalyzeRequest := { fileUrl := some "a.png" }

/-- C4: with a truthy URL whose fetch succeeds, the handler fetches exactly
that URL and makes one generative call whose parts are the text prompt and
one inline-data part holding the base64 bytes; a truthy EHR URL wins over
the lab URL; with no truthy URL, nothing is fetched and the single call
carries only the text prompt. -/
theorem analyzeEhr_file_attachment (env : Env) (b : AnalyzeRequest) (k : String)
    (hk : env.apiKey = some k) :
    (∀ bytes, (jsTruthy b.fileUrl || jsTruthy b.labUrl) = true →
      env.fetchFile (chosenUrl b) = .ok bytes →
      (handle env ⟨"POST", .ok b⟩).2 =
        ⟨[chosenUrl b],
          [⟨[.text (requestPrompt env b),
              .inlineData (mimeTypeFor (chosenUrl b)) (base64Encode bytes)]⟩]⟩) ∧
    (jsTruthy b.fileUrl = true → chosenUrl b = b.fileUrl.getD "") ∧
    ((jsTruthy b.fileUrl || jsTruthy b.labUrl) = false →
      (handle env ⟨"POST", .ok b⟩).2 = ⟨[], [⟨[.text (requestPrompt env b)]⟩]⟩) := by
  refine ⟨fun bytes hor hfetch => ?_, fun h => by simp [chosenUrl, h], fun hor => ?_⟩
  · have hfp : fetchPhase env b =
        (some ⟨mimeTypeFor (chosenUrl b), base64Encode bytes⟩, [chosenUrl b]) := by
      simp [fetchPhase, hor, fetchFileAsBase64, hfetch]
    cases hres : env.geminiApi ⟨[.text (requestPrompt env b),
        .inlineData (mimeTypeFor (chosenUrl b)) (base64Encode bytes)]⟩ with
    | error msg => simp [handle, handlePost, callGemini, hk, hfp, hres, buildParts]
    | ok text =>
      cases hp : env.parseJSON text <;>
        simp [handle, handlePost, callGemini, hk, hfp, hres, hp, buildParts]
  · have hfp : fetchPhase env b = (none, []) := by
      simp [fetchPhase, hor]
    cases hres : env.geminiApi ⟨[.text (requestPrompt env b)]⟩ with
    | error msg => simp [handle, handlePost, callGemini, hk, hfp, hres, buildParts]
    | ok text =>
      cases hp : env.parseJSON text <;>
        simp [handle, handlePost, callGemini, hk, hfp, hres, hp, buildParts]

/-- Witness for C4 at a concrete request and environment. -/
theorem analyzeEhr_file_attachment_witness :
    (handle envFetch ⟨"POST", .ok reqFile⟩).2 =
      ⟨["a.png"],
        [⟨[.text (requestPrompt envFetch reqFile),
            .inlineData (mimeTypeFor "a.png") (base64Encode [104, 105])]⟩]⟩ :=
  (analyzeEhr_file_attachment envFetch reqFile "key" rfl).1 [104, 105] (by decide) rfl

/-- C5: a failing fetch of a provided document URL does not fail the
request: the handler answers 200, still calls the model exactly once with
no file part, and the dosage prompt still describes the provided document,
because the document flags come from URL presence, not fetch success. -/
theorem analyzeEhr_fetch_failure_continues (env : Env) (b : AnalyzeRequest) (k e : String)
    (hk : env.apiKey = some k)
    (hor : (jsTruthy b.fileUrl || jsTruthy b.labUrl) = true)
    (hfetch : env.fetchFile (chosenUrl b) = .error e)
    (htype : b.analysisType.getD "dosage_analysis" ≠ "disease_prediction") :
    (handle env ⟨"POST", .ok b⟩).1.status = 200 ∧
    (handle env ⟨"POST", .ok b⟩).2 = ⟨[chosenUrl b], [⟨[.text (requestPrompt env b)]⟩]⟩ ∧
    requestPrompt env b =
      buildPrompt env (b.patient.getD {}) (jsTruthy b.fileUrl) (jsTruthy b.labUrl) ∧
    (jsTruthy b.fileUrl = true → containsStr (requestPrompt env b)
      "- EHR/Medical Report (PDF): Analyze this document for relevant clinical findings, lab values, diagnoses, and treatment history") ∧
    (jsTruthy b.labUrl = true → containsStr (requestPrompt env b)
      "- Lab Report (Image/PDF): Analyze this document for lab values, vital signs, and diagnostic findings") := by
  have hfp : fetchPhase env b = (none, [chosenUrl b]) := by
    simp [fetchPhase, hor, fetchFileAsBase64, hfetch]
  have hpr : requestPrompt env b =
      buildPrompt env (b.patient.getD {}) (jsTruthy b.fileUrl) (jsTruthy b.labUrl) := by
    simp [requestPrompt, htype]
  refine ⟨?_, ?_, hpr, fun hfile => ?_, fun hlab => ?_⟩
  · cases hres : env.geminiApi ⟨[.text (requestPrompt env b)]⟩ with
    | error msg => simp [handle, handlePost, callGemini, hk, hfp, hres, buildParts]
    | ok text =>
      cases hp : env.parseJSON text <;>
        simp [handle, handlePost, callGemini, hk, hfp, hres, hp, buildParts]
  · cases hres : env.geminiApi ⟨[.text (requestPrompt env b)]⟩ with
    | error msg => simp [handle, handlePost, callGemini, hk, hfp, hres, buildParts]
    | ok text =>
      cases hp : env.parseJSON text <;>
        simp [handle, handlePost, callGemini, hk, hfp, hres, hp, buildParts]
  · rw [hpr, hfile]
    simp only [buildPrompt, if_true]
    iterate 3 apply containsStr_snoc
    exact containsStr_tail1 _ _
  · rw [hpr, hlab]
    simp only [buildPrompt, if_true]
    iterate 1 apply containsStr_snoc
    exact containsStr_tail1 _ _

/-- Witness for C5 at a concrete request and environment. -/
theorem analyzeEhr_fetch_failure_continues_witness :
    (handle envFetchFail ⟨"POST", .ok reqFile⟩).1.status = 200 :=
  (analyzeEhr_fetch_failure_continues envFetchFail reqFile "key" "404" rfl (by decide) rfl
    (by decide)).1

/-- C6: the handler is stateless and deterministic: two invocations with
the same method and body, against external services answering the same
way, produce the same response and the same external activity. -/
theorem analyzeEhr_stateless (env env' : Env) (req req' : HttpRequest)
    (hm : req.method = req'.method) (hb : req.bodyJson = req'.bodyJson)
    (hk : env.apiKey = env'.apiKey)
    (hf : ∀ u, env.fetchFile u = env'.fetchFile u)
    (hg : ∀ r, env.geminiApi r = env'.geminiApi r)
    (hp : ∀ s, env.parseJSON s = env'.parseJSON s)
    (hpf : ∀ s, env.parseFloat s = env'.parseFloat s) :
    handle env req = handle env' req' := by
  have he : env = env' := by
    cases env; cases env'
    simp only [Env.mk.injEq]
    exact ⟨hk, funext hf, funext hg, funext hp, funext hpf⟩
  have hr : req = req' := by
    cases req; cases req'
    simp only [HttpRequest.mk.injEq]
    exact ⟨hm, hb⟩
  rw [he, hr]

/-- Witness for C6: two textually identical invocations agree. -/
theorem analyzeEhr_stateless_witness :
    handle envRelay ⟨"GET", .error "x"⟩ = handle envRelay ⟨"GET", .error "x"⟩ :=
  analyzeEhr_stateless envRelay envRelay ⟨"GET", .error "x"⟩ ⟨"GET", .error "x"⟩
    rfl rfl rfl (fun _ => rfl) (fun _ => rfl) (fun _ => rfl) (fun _ => rfl)

/-- A concrete client environment whose query returns no rows. -/
def clientEnvOk : ClientEnv := ⟨fun _ => .ok [], fun s => s, "2026-01-01"⟩

/-- C8: both patient listings query all columns of `patient_records`
ordered by `created_at` descending; on success every shown record is the
transform of a returned row, and the mock lists are substituted exactly
when the query errors. -/
theorem loadPatients_from_patient_records (env : ClientEnv) :
    patientsQuery.table = "patient_records" ∧
    patientsQuery.selectCols = "*" ∧
    patientsQuery.orderBy = "created_at" ∧
    patientsQuery.ascending = false ∧
    (∀ rows, env.db patientsQuery = .ok rows →
      loadPatientsPanel env = rows.map (transformRecordPanel env) ∧
      loadPatientsEHR env = rows.map (transformRecordEHR env)) ∧
    (∀ e, env.db patientsQuery = .error e →
      loadPatientsPanel env = mockPatientsPanel ∧
      loadPatientsEHR env = mockPatientsEHR) := by
  refine ⟨rfl, rfl, rfl, rfl, fun rows h => ?_, fun e h => ?_⟩
  · exact ⟨by simp [loadPatientsPanel, h], by simp [loadPatientsEHR, h]⟩
  · exact ⟨by simp [loadPatientsPanel, h], by simp [loadPatientsEHR, h]⟩

/-- Witness for C8 at a concrete client environment. -/
theorem loadPatients_from_patient_records_witness :
    loadPatientsPanel clientEnvOk = [] ∧ loadPatientsEHR clientEnvOk = [] :=
  (loadPatients_from_patient_records clientEnvOk).2.2.2.2.1 [] rfl
